import Mathlib

/-!
# Verification of the sample-agent workflow logic

Shallow embedding of the two VoltAgent workflow chains of this repository:

* the investment-decision workflow (`src/src/workflows/index.ts`): three
  sequential stages (market-analysis, approval-process, final-decision) with
  human-in-the-loop suspend/resume in the approval stage;
* the deterministic tail of the crypto-analysis workflow
  (`src/src/workflows/crypto-analysis-workflow.ts`): the integrated-analysis
  and report-delivery stages together with their helper functions.  The two
  collection stages in front of them draw on `Math.random` and are therefore
  represented by their output state, which is the input of the embedded tail.

JavaScript numbers are modelled as `Int` (all comparisons in the embedded code
are integral thresholds), JavaScript `undefined` as `Option.none`, and the
truthiness semantics of `x || d` on strings and numbers by explicit helpers.
-/

namespace SampleAgent

/-- JS fallback `x || d` for an optional string: `undefined` and `""` are falsy. -/
def jsOrStr (o : Option String) (d : String) : String :=
  match o with
  | some s => if s == "" then d else s
  | none => d

/-- JS fallback `x || d` for an optional number: `undefined` and `0` are falsy. -/
def jsOrNum (o : Option Int) (d : Int) : Int :=
  match o with
  | some n => if n == 0 then d else n
  | none => d

/-- JS truthiness of an optional boolean field: `undefined` and `false` are falsy. -/
def truthy (o : Option Bool) : Bool :=
  match o with
  | some b => b
  | none => false

/-! ## Investment-decision workflow (`src/src/workflows/index.ts`)

The accumulated state is a bag of fields threaded through the stages by object
spreading.  The four input fields are always present (the workflow input is
validated by the declared zod schema), the later fields are `Option`s whose
`some`-ness records presence of the key.  The `comments` field is special: the
approval stage writes `comments: resumeData.comments` into the spread, so the
key can be present while its value is `undefined`; it is therefore modelled as
`Option (Option String)` (outer layer: key presence, inner layer: value). -/

/-- Validated input of the investment-decision workflow (zod `input` schema). -/
structure InitialInput where
  symbol : String
  amount : Int
  investorId : String
  portfolioId : String
deriving DecidableEq

/-- The accumulated state threaded through the investment-decision stages. -/
structure InvState where
  symbol : String
  amount : Int
  investorId : String
  portfolioId : String
  riskLevel : Option String := none
  recommendation : Option String := none
  needsApproval : Option Bool := none
  approved : Option Bool := none
  approvedBy : Option String := none
  finalAmount : Option Int := none
  comments : Option (Option String) := none
deriving DecidableEq

/-- State at the start of the pipeline: exactly the validated input fields. -/
def initState (input : InitialInput) : InvState :=
  { symbol := input.symbol
    amount := input.amount
    investorId := input.investorId
    portfolioId := input.portfolioId }

/-- The fixed `volatilityMap` lookup of the market-analysis stage: a JS record
indexed by symbol; absent keys yield `undefined` (here `none`). -/
def volatilityLookup (symbol : String) : Option String :=
  if symbol = "AAPL" then some "low"
  else if symbol = "GOOGL" then some "low"
  else if symbol = "MSFT" then some "low"
  else if symbol = "TSLA" then some "high"
  else if symbol = "NVDA" then some "high"
  else if symbol = "META" then some "medium"
  else none

/-- Helper `generateRecommendation(amount, riskLevel)` of the workflow file. -/
def generateRecommendation (amount : Int) (riskLevel : String) : String :=
  if riskLevel = "high" ∧ amount > 50000 then
    "高リスク・高額投資のため慎重な検討が必要"
  else if riskLevel = "low" ∧ amount < 10000 then
    "低リスク・少額投資のため推奨"
  else
    "標準的な投資として検討可能"

/-- Helper `needsApproval(amount, riskLevel)`: approval is required for
amounts of at least 10000 USD or for high-risk symbols. -/
def needsApproval (amount : Int) (riskLevel : String) : Bool :=
  decide (amount ≥ 10000) || riskLevel == "high"

/-- Stage 1 `market-analysis`: risk lookup (default `"medium"` via `||`),
recommendation string, and the `needsApproval` flag, spread onto the state. -/
def marketAnalysis (data : InvState) : InvState :=
  let riskLevel := jsOrStr (volatilityLookup data.symbol) "medium"
  { data with
    riskLevel := some riskLevel
    recommendation := some (generateRecommendation data.amount riskLevel)
    needsApproval := some (needsApproval data.amount riskLevel) }

/-- Resume payload of the approval stage (its zod `resumeSchema`). -/
structure ResumeData where
  approved : Bool
  approverId : String
  comments : Option String := none
  adjustedAmount : Option Int := none
deriving DecidableEq

/-- The payload passed to `suspend` by the approval stage. -/
structure SuspendPayload where
  symbol : String
  amount : Int
  riskLevel : Option String
  recommendation : Option String
deriving DecidableEq

/-- Outcome of one invocation of the approval stage: either the next state, or
a suspension carrying a reason string and a payload.  The source signals the
suspension with `await suspend(...)`, which unwinds the stage body; following
the spec design note this is made an explicit sum-typed return value. -/
inductive ApprovalOutcome where
  | next (state : InvState)
  | suspended (reason : String) (payload : SuspendPayload)
deriving DecidableEq

/-- Stage 2 `approval-process`.  With resume data present it adopts the
approver decision (`adjustedAmount || data.amount` for the final amount) and
returns; otherwise it suspends when `needsApproval` is truthy, identifying the
approver tier (`ディレクター` = director above 100000 USD, `アナリスト` =
analyst otherwise); otherwise it auto-approves as `"system"`. -/
def approvalProcess (data : InvState) (resumeData : Option ResumeData) : ApprovalOutcome :=
  match resumeData with
  | some rd =>
    .next { data with
      approved := some rd.approved
      approvedBy := some rd.approverId
      finalAmount := some (jsOrNum rd.adjustedAmount data.amount)
      comments := some rd.comments }
  | none =>
    if truthy data.needsApproval then
      let approverType := if data.amount > 100000 then "ディレクター" else "アナリスト"
      .suspended (approverType ++ "承認待ち")
        { symbol := data.symbol
          amount := data.amount
          riskLevel := data.riskLevel
          recommendation := data.recommendation }
    else
      .next { data with
        approved := some true
        approvedBy := some "system"
        finalAmount := some data.amount }

/-- Result object of the investment-decision workflow (its zod `result`
schema declares `status ∈ {approved, rejected, pending}`). -/
structure InvResult where
  status : String
  approvedBy : Option String
  finalAmount : Option Int
  riskLevel : Option String
  recommendation : Option String
deriving DecidableEq

/-- Stage 3 `final-decision`: maps the truthiness of `approved` to
`"approved"`/`"rejected"` and returns a fresh object literal with exactly the
five declared result fields (no spread of the accumulated state). -/
def finalDecision (data : InvState) : InvResult :=
  { status := if truthy data.approved then "approved" else "rejected"
    approvedBy := data.approvedBy
    finalAmount := data.finalAmount
    riskLevel := data.riskLevel
    recommendation := data.recommendation }

/-- Result of running the pipeline: completed with a result, or suspended with
the persisted snapshot, the reason and the payload. -/
inductive RunResult where
  | completed (result : InvResult)
  | suspendedAt (snapshot : InvState) (reason : String) (payload : SuspendPayload)
deriving DecidableEq

/-- Modelled from the spec: the pipeline executor is supplied by the external
agent framework (`createWorkflowChain`), not by code under `src/`.  Per the
spec it runs the stages sequentially, and on a suspension persists the state
snapshot of the suspended stage and returns a pending handle.  Only the
approval stage can suspend, so `start` is: stage 1, then stage 2 without
resume data, then stage 3 on a `next` outcome. -/
def startInvestment (input : InitialInput) : RunResult :=
  let s1 := marketAnalysis (initState input)
  match approvalProcess s1 none with
  | .next s2 => .completed (finalDecision s2)
  | .suspended reason payload => .suspendedAt s1 reason payload

/-- Modelled from the spec: `resume` re-enters the suspended stage with the
persisted snapshot and the externally supplied resume data, then continues
forward through the remaining stages exactly as `start` would. -/
def resumeInvestment (snapshot : InvState) (rd : ResumeData) : RunResult :=
  match approvalProcess snapshot (some rd) with
  | .next s2 => .completed (finalDecision s2)
  | .suspended reason payload => .suspendedAt snapshot reason payload

/-! ## Crypto-analysis workflow tail (`src/src/workflows/crypto-analysis-workflow.ts`)

The first two stages (market-data-collection, news-collection-analysis) call
`Math.random`-based simulators; their deterministic contribution is the shape
of the state they hand to stage 3, captured by `CryptoState2` (the unused
floating-point `sentimentScore` field is not read by any later stage and is
left out of the model).  Stages 3 and 4 and their helper functions are
embedded below; the `new Date().toISOString()` timestamps are passed in as
explicit `now` arguments. -/

/-- State after the two collection stages of the crypto-analysis workflow:
the validated input fields plus the fields added by stages 1 and 2. -/
structure CryptoState2 where
  cryptoId : String
  includeDetailedAnalysis : Bool
  newsCount : Int
  userId : Option String := none
  marketDataStatus : String
  marketDataQuality : String
  priceAvailable : Bool
  volumeAvailable : Bool
  newsAnalysisStatus : String
  articlesFound : Int
  newsSentiment : String
deriving DecidableEq

/-- State after stage 3 `integrated-analysis` (a spread of the previous state
plus the six fields the stage adds). -/
structure CryptoState3 extends CryptoState2 where
  analysisCompleted : Bool
  overallAssessment : String
  riskLevel : String
  confidenceLevel : Int
  reportSections : List String
  analysisDate : String
deriving DecidableEq

/-- Helper `performIntegratedAnalysis(data, hasRequiredData)`. -/
def performIntegratedAnalysis (data : CryptoState2) (hasRequiredData : Bool) :
    String × List String :=
  if !hasRequiredData then
    ("データ不足により限定的な分析",
     ["市場データサマリー（部分的）", "ニュース分析（限定的）", "結論（暫定的）"])
  else
    let priceAction := if data.marketDataQuality = "high" then "明確" else "不明確"
    let newsImpact := if data.articlesFound ≥ 8 then "高い" else "低い"
    (priceAction ++ "な価格動向と" ++ newsImpact ++ "ニュース影響度による総合分析",
     ["市場データサマリー（完全）", "最新ニュースのセンチメント分析", "統合的結論と推奨事項"])

/-- Helper `assessOverallRisk(marketQuality, sentiment, articleCount)`. -/
def assessOverallRisk (marketQuality : String) (sentiment : String)
    (articleCount : Int) : String :=
  let riskScore : Int :=
    (if marketQuality = "low" then 2 else if marketQuality = "medium" then 1 else 0)
      + (if sentiment = "ネガティブ" then 2 else if sentiment = "中立" then 1 else 0)
      + (if articleCount < 5 then 1 else 0)
  if riskScore ≥ 4 then "高"
  else if riskScore ≥ 2 then "中"
  else "低"

/-- Helper `calculateAnalysisConfidence(marketStatus, newsStatus, articleCount)`. -/
def calculateAnalysisConfidence (marketStatus : String) (newsStatus : String)
    (articleCount : Int) : Int :=
  let confidence : Int :=
    30 + (if marketStatus = "success" then 35 else if marketStatus = "partial" then 20 else 0)
      + (if newsStatus = "success" then 25 else if newsStatus = "partial" then 15 else 0)
      + min (articleCount * 2) 20
  min 95 confidence

/-- Stage 3 `integrated-analysis`: checks whether both collection stages
reported `"success"`, runs the helpers, and spreads the results onto the
state — note that it sets `analysisCompleted` to `true` unconditionally. -/
def integratedAnalysis (data : CryptoState2) (now : String) : CryptoState3 :=
  let hasRequiredData :=
    data.marketDataStatus == "success" && data.newsAnalysisStatus == "success"
  let analysisResult := performIntegratedAnalysis data hasRequiredData
  { toCryptoState2 := data
    analysisCompleted := true
    overallAssessment := analysisResult.1
    riskLevel := assessOverallRisk data.marketDataQuality data.newsSentiment data.articlesFound
    confidenceLevel :=
      calculateAnalysisConfidence data.marketDataStatus data.newsAnalysisStatus data.articlesFound
    reportSections := analysisResult.2
    analysisDate := now }

/-- JS `s.charAt(0).toUpperCase() + s.slice(1)` (ASCII first letter). -/
def capitalizeJs (s : String) : String :=
  match s.data with
  | [] => ""
  | c :: cs => String.mk (Char.toUpper c :: cs)

/-- Result object of the crypto-analysis workflow (its zod `result` schema
declares `analysisStatus ∈ {completed, partial, failed}`). -/
structure CryptoResult where
  cryptoId : String
  analysisStatus : String
  reportGenerated : Bool
  analysisDate : String
  summary : String
  riskLevel : String
  confidence : Int
deriving DecidableEq

/-- Helper `generateSummaryMessage(data)` of the crypto workflow. -/
def generateSummaryMessage (data : CryptoState3) : String :=
  let cryptoName := capitalizeJs data.cryptoId
  let status := if data.analysisCompleted then "完了" else "部分完了"
  cryptoName ++ "の暗号通貨分析が" ++ status ++ "しました。"
    ++ "市場データ: " ++ jsOrStr (some data.marketDataStatus) "不明" ++ ", "
    ++ "ニュース分析: " ++ jsOrStr (some data.newsAnalysisStatus) "不明" ++ " "
    ++ "(" ++ toString (jsOrNum (some data.articlesFound) 0) ++ "件の記事を分析)"

/-- Stage 4 `report-delivery`: derives `analysisStatus` from
`analysisCompleted` (falling back to `"partial"` when at least one collection
stage succeeded, `"failed"` otherwise) and returns a fresh object literal with
exactly the seven declared result fields. -/
def reportDelivery (data : CryptoState3) (now : String) : CryptoResult :=
  let analysisStatus :=
    if data.analysisCompleted then "completed"
    else if data.marketDataStatus == "success" || data.newsAnalysisStatus == "success" then
      "partial"
    else "failed"
  { cryptoId := data.cryptoId
    analysisStatus := analysisStatus
    reportGenerated := data.analysisCompleted || false
    analysisDate := jsOrStr (some data.analysisDate) now
    summary := generateSummaryMessage data
    riskLevel := jsOrStr (some data.riskLevel) "不明"
    confidence := jsOrNum (some data.confidenceLevel) 0 }

/-! ## Field-presence model (append-only union semantics of §3)

A JS state object is a bag of keys; a key is "present" when the `in` operator
would report it.  The lists below enumerate the present keys of each modelled
object, with optional keys guarded by `some`-ness of the corresponding
`Option` layer. -/

/-- The key list contributed by one optional field. -/
def optKey (key : String) (present : Bool) : List String :=
  if present then [key] else []

/-- Keys present in an investment-decision state object. -/
def invFields (s : InvState) : List String :=
  ["symbol", "amount", "investorId", "portfolioId"]
    ++ optKey "riskLevel" s.riskLevel.isSome
    ++ optKey "recommendation" s.recommendation.isSome
    ++ optKey "needsApproval" s.needsApproval.isSome
    ++ optKey "approved" s.approved.isSome
    ++ optKey "approvedBy" s.approvedBy.isSome
    ++ optKey "finalAmount" s.finalAmount.isSome
    ++ optKey "comments" s.comments.isSome

/-- Keys present in the investment-decision result object: the final stage
returns a fresh object literal, so the key set is fixed. -/
def invResultFields (_ : InvResult) : List String :=
  ["status", "approvedBy", "finalAmount", "riskLevel", "recommendation"]

/-- Keys present in a post-collection crypto-analysis state object. -/
def cryptoFields2 (s : CryptoState2) : List String :=
  ["cryptoId", "includeDetailedAnalysis", "newsCount"]
    ++ optKey "userId" s.userId.isSome
    ++ ["marketDataStatus", "marketDataQuality", "priceAvailable", "volumeAvailable",
        "newsAnalysisStatus", "articlesFound", "newsSentiment"]

/-- Keys present in a post-analysis crypto state object: the spread of the
previous keys plus the six keys added by `integrated-analysis`. -/
def cryptoFields3 (s : CryptoState3) : List String :=
  cryptoFields2 s.toCryptoState2
    ++ ["analysisCompleted", "overallAssessment", "riskLevel", "confidenceLevel",
        "reportSections", "analysisDate"]

/-- Keys present in the crypto-analysis result object: a fresh object literal
with a fixed key set. -/
def cryptoResultFields (_ : CryptoResult) : List String :=
  ["cryptoId", "analysisStatus", "reportGenerated", "analysisDate", "summary",
   "riskLevel", "confidence"]

/-! ## Concrete states used by counterexamples and witnesses -/

/-- A state of the approval stage with amount 5000 (the auto-approval shape the
AAPL scenario produces), used as concrete input below. -/
def c7State : InvState :=
  { symbol := "AAPL", amount := 5000, investorId := "INV-001", portfolioId := "PF-001",
    riskLevel := some "low", recommendation := some "低リスク・少額投資のため推奨",
    needsApproval := some false, approved := some true, approvedBy := some "system",
    finalAmount := some 5000 }

/-- A resume payload whose `adjustedAmount` is present but equal to `0`. -/
def c4Resume : ResumeData :=
  { approved := true, approverId := "A1", adjustedAmount := some 0 }

/-- The final amount carried by a `next` outcome, if any. -/
def nextFinalAmount (o : ApprovalOutcome) : Option Int :=
  match o with
  | .next s => s.finalAmount
  | .suspended _ _ => none

/-- A rejection resume payload with no adjustment and no comment. -/
def c7Resume : ResumeData := { approved := false, approverId := "A2" }

/-- The state produced by re-entering the approval stage on `c7State` with
`c7Resume`. -/
def c7Resumed : InvState :=
  { c7State with
    approved := some false
    approvedBy := some "A2"
    finalAmount := some 5000
    comments := some none }

/-- A post-collection crypto state in which market-data collection succeeded
and news collection was degraded (2 of 10 requested articles, `"partial"`). -/
def c8State : CryptoState2 :=
  { cryptoId := "bitcoin", includeDetailedAnalysis := false, newsCount := 10,
    userId := none, marketDataStatus := "success", marketDataQuality := "high",
    priceAvailable := true, volumeAvailable := true,
    newsAnalysisStatus := "partial", articlesFound := 2, newsSentiment := "中立" }

/-! ## The claims -/

/-- C1: starting the investment-decision pipeline with symbol `"NVDA"` and
amount `500000` suspends with a payload whose `riskLevel` is `"high"`, and
resuming with `{approved := true, approverId := "D1", adjustedAmount := 400000}`
completes with status `"approved"`, approver `"D1"` and final amount `400000`,
for every investor and portfolio id. -/
theorem C1_nvda_round_trip (investorId portfolioId : String) :
    ∃ snap reason payload,
      startInvestment ⟨"NVDA", 500000, investorId, portfolioId⟩ =
        .suspendedAt snap reason payload ∧
      payload.riskLevel = some "high" ∧
      ∃ r, resumeInvestment snap ⟨true, "D1", none, some 400000⟩ = .completed r ∧
        r.status = "approved" ∧ r.approvedBy = some "D1" ∧ r.finalAmount = some 400000 :=
  ⟨_, _, _, rfl, rfl, _, rfl, rfl, rfl, rfl⟩

/-- C2: the `needsApproval` predicate of the market-analysis stage holds
exactly when the amount is at least 10000 or the risk level is `"high"`. -/
theorem C2_needs_approval_iff (amount : Int) (riskLevel : String) :
    needsApproval amount riskLevel = true ↔ (amount ≥ 10000 ∨ riskLevel = "high") := by
  simp [needsApproval]

/-- C3: with `needsApproval` truthy and no resume data, the approval stage
suspends, naming the director tier (`ディレクター`) above 100000 and the
analyst tier (`アナリスト`) otherwise, with payload
`{symbol, amount, riskLevel, recommendation}`; with `needsApproval` falsy it
does not suspend (so no tier is computed). -/
theorem C3_tier_selection (data : InvState) :
    (truthy data.needsApproval = true →
      approvalProcess data none =
        .suspended ((if data.amount > 100000 then "ディレクター" else "アナリスト") ++ "承認待ち")
          { symbol := data.symbol, amount := data.amount,
            riskLevel := data.riskLevel, recommendation := data.recommendation }) ∧
    (truthy data.needsApproval = false →
      ∃ s, approvalProcess data none = .next s) := by
  constructor
  · intro h
    simp [approvalProcess, h]
  · intro h
    exact ⟨{ data with
        approved := some true
        approvedBy := some "system"
        finalAmount := some data.amount }, by simp [approvalProcess, h]⟩

/-- Witness for C3 at the NVDA director scenario and the AAPL auto scenario. -/
theorem C3_tier_selection_witness :
    (approvalProcess (marketAnalysis (initState ⟨"NVDA", 500000, "INV-003", "PF-003"⟩)) none =
      .suspended "ディレクター承認待ち"
        ⟨"NVDA", 500000, some "high", some "高リスク・高額投資のため慎重な検討が必要"⟩) ∧
    (∃ s, approvalProcess (marketAnalysis (initState ⟨"AAPL", 5000, "INV-001", "PF-001"⟩)) none =
      .next s) :=
  ⟨(C3_tier_selection _).1 (by decide), (C3_tier_selection _).2 (by decide)⟩

/-- C4 counterexample: on resume with `adjustedAmount` present but `0`, the
stage sets the final amount to the original amount (5000), not to the present
`adjustedAmount` — JS `||` treats `0` as absent. -/
theorem C4_counterexample :
    c4Resume.adjustedAmount = some 0 ∧
    nextFinalAmount (approvalProcess c7State (some c4Resume)) = some 5000 ∧
    (nextFinalAmount (approvalProcess c7State (some c4Resume)) == some 0) = false := by
  decide

/-- C4 (amended): on re-entry the approval stage adopts the payload's
`approved` and `approverId`, carries its `comments`, and sets the final amount
to `adjustedAmount` when it is present and nonzero, falling back to the
original amount when it is absent or `0`. -/
theorem C4_resume_adoption (data : InvState) (rd : ResumeData) :
    ∃ s, approvalProcess data (some rd) = .next s ∧
      s.approved = some rd.approved ∧
      s.approvedBy = some rd.approverId ∧
      s.comments = some rd.comments ∧
      s.finalAmount = some (match rd.adjustedAmount with
        | some a => if a = 0 then data.amount else a
        | none => data.amount) := by
  refine ⟨_, rfl, rfl, rfl, rfl, ?_⟩
  cases h : rd.adjustedAmount with
  | none => simp [jsOrNum, h]
  | some a =>
    by_cases ha : a = 0 <;> simp [jsOrNum, h, ha]

/-- C5: with resume data present the approval stage always returns a `next`
outcome — it can never suspend a second time for the same decision point. -/
theorem C5_resume_never_suspends (data : InvState) (rd : ResumeData) :
    ∃ s, approvalProcess data (some rd) = .next s :=
  ⟨_, rfl⟩

/-- C6: the AAPL / 5000 input completes without any suspension, auto-approved
by `"system"` with final amount 5000, for every investor and portfolio id. -/
theorem C6_auto_approval (investorId portfolioId : String) :
    startInvestment ⟨"AAPL", 5000, investorId, portfolioId⟩ =
      .completed { status := "approved", approvedBy := some "system",
                   finalAmount := some 5000, riskLevel := some "low",
                   recommendation := some "低リスク・少額投資のため推奨" } :=
  rfl

/-- C7 counterexample: the terminal stage does remove fields — `symbol` is
present in the state final-decision receives and absent from the result object
it returns. -/
theorem C7_counterexample :
    ((invFields c7State).contains "symbol") = true ∧
    ((invResultFields (finalDecision c7State)).contains "symbol") = false := by
  decide

/-- C7 (amended): every non-terminal embedded stage preserves the fields
present in the state it receives (market-analysis, any `next` outcome of
approval-process, integrated-analysis), while the terminal stages
(final-decision, report-delivery) return fresh objects with exactly the
declared result fields, dropping all other accumulated fields. -/
theorem C7_field_preservation :
    (∀ s f, f ∈ invFields s → f ∈ invFields (marketAnalysis s)) ∧
    (∀ s rd s2, approvalProcess s rd = .next s2 → ∀ f, f ∈ invFields s → f ∈ invFields s2) ∧
    (∀ s now f, f ∈ cryptoFields2 s → f ∈ cryptoFields3 (integratedAnalysis s now)) ∧
    (∀ s, invResultFields (finalDecision s) =
      ["status", "approvedBy", "finalAmount", "riskLevel", "recommendation"]) ∧
    (∀ s now, cryptoResultFields (reportDelivery s now) =
      ["cryptoId", "analysisStatus", "reportGenerated", "analysisDate", "summary",
       "riskLevel", "confidence"]) := by
  refine ⟨?_, ?_, ?_, fun _ => rfl, fun _ _ => rfl⟩
  · intro s f hf
    simp [invFields, marketAnalysis, optKey] at hf ⊢
    tauto
  · intro s rd s2 h f hf
    rcases rd with _ | rd
    · by_cases hna : truthy s.needsApproval = true
      · simp [approvalProcess, hna] at h
      · simp only [approvalProcess, Bool.not_eq_true] at hna
        simp [approvalProcess, hna] at h
        subst h
        simp [invFields, optKey] at hf ⊢
        tauto
    · simp [approvalProcess] at h
      subst h
      simp [invFields, optKey] at hf ⊢
      tauto
  · intro s now f hf
    simp [cryptoFields3, cryptoFields2, integratedAnalysis, optKey] at hf ⊢
    tauto

/-- Witness for C7 (amended) at concrete states for each preserving stage. -/
theorem C7_field_preservation_witness :
    ("symbol" ∈ invFields (marketAnalysis c7State)) ∧
    ("riskLevel" ∈ invFields c7Resumed) ∧
    ("cryptoId" ∈ cryptoFields3 (integratedAnalysis c8State "2025-01-01T00:00:00.000Z")) :=
  ⟨C7_field_preservation.1 c7State "symbol" (by decide),
   C7_field_preservation.2.1 c7State (some c7Resume) c7Resumed (by decide) "riskLevel" (by decide),
   C7_field_preservation.2.2.1 c8State "2025-01-01T00:00:00.000Z" "cryptoId" (by decide)⟩

/-- C8: when market-data collection succeeded and news collection was only
partial, the integrated-analysis stage still sets `analysisCompleted` to
`true`, so report-delivery reports `analysisStatus = "completed"` — the
declared `"partial"` status is unreachable. -/
theorem C8_status_divergence :
    c8State.marketDataStatus = "success" ∧
    c8State.newsAnalysisStatus = "partial" ∧
    (integratedAnalysis c8State "2025-01-01T00:00:00.000Z").analysisCompleted = true ∧
    (reportDelivery (integratedAnalysis c8State "2025-01-01T00:00:00.000Z")
        "2025-01-01T00:00:01.000Z").analysisStatus = "completed" ∧
    ((reportDelivery (integratedAnalysis c8State "2025-01-01T00:00:00.000Z")
        "2025-01-01T00:00:01.000Z").analysisStatus == "partial") = false := by
  decide

/-- C9: every symbol outside the volatility table gets risk level
`"medium"` from the market-analysis stage. -/
theorem C9_default_medium (data : InvState)
    (h : data.symbol ∉ ["AAPL", "GOOGL", "MSFT", "TSLA", "NVDA", "META"]) :
    (marketAnalysis data).riskLevel = some "medium" := by
  simp only [List.mem_cons, List.not_mem_nil, or_false, not_or] at h
  obtain ⟨h1, h2, h3, h4, h5, h6⟩ := h
  simp [marketAnalysis, volatilityLookup, jsOrStr, h1, h2, h3, h4, h5, h6]

/-- Witness for C9 at the unlisted symbol `"XYZ"`. -/
theorem C9_default_medium_witness :
    (marketAnalysis (initState ⟨"XYZ", 5000, "INV-001", "PF-001"⟩)).riskLevel = some "medium" :=
  C9_default_medium _ (by decide)

/-- C10: although the declared result schema admits `"pending"`, the terminal
stage only ever returns status `"approved"` or `"rejected"`. -/
theorem C10_no_pending (data : InvState) :
    ((finalDecision data).status = "approved" ∨ (finalDecision data).status = "rejected") ∧
    ((finalDecision data).status == "pending") = false := by
  cases h : truthy data.approved
  · exact ⟨Or.inr (by simp [finalDecision, h]), by simp [finalDecision, h]⟩
  · exact ⟨Or.inl (by simp [finalDecision, h]), by simp [finalDecision, h]⟩

end SampleAgent
